import Mathlib

/-!
# Verification of the Monie-point transaction-log parsing engine

Shallow embedding of `src/anomaly_detection/components/data_parser.py`
(classes `BaseTransactionParser` and `TransactionCleaner`) and proofs of the
frozen claims about it.

Modelling conventions:
* Python strings are Lean `String`s (processed as `List Char`).
* Python `float` amounts are modelled as exact rationals `ℚ`; the decimal
  strings the program converts are short, so the value claimed by the spec is
  the exact decimal value.
* A Python function that may raise an uncaught exception is modelled with an
  `Option` result, `none` standing for the raised exception.
* The regex character classes `\w`, `\d`, `\s` are modelled over their ASCII
  content (the data handled by the program is ASCII apart from the currency
  glyphs, which are matched explicitly by the patterns).
* Each of the nine `re.match` patterns is hand-translated to a deterministic
  scanner.  Every quantified sub-pattern in the nine regexes is a character
  class followed either by a delimiter outside the class (so the greedy match
  is the maximal run, with no feasible backtracking) or by a literal of the
  form `' ' :: c :: _` where `c` is the single character excluded from the
  class (so the unique feasible backtracking candidate gives back exactly the
  final space).  The scanners implement exactly these two shapes.
-/

namespace MoniePoint

/-! ## Character classes (ASCII models of the Python regex classes) -/

/-- Python regex `\w` over ASCII: letters, digits and underscore. -/
def isWordChar (c : Char) : Bool := c.isAlphanum || c = '_'

/-- The regex class `[\w-]`. -/
def isWordDashChar (c : Char) : Bool := isWordChar c || c = '-'

/-- The regex class `[\d,.]` (also `[\d.,]`). -/
def isNumTokChar (c : Char) : Bool := c.isDigit || c = ',' || c = '.'

/-- The regex class `[\d,]` used by `extract_amount`'s number search. -/
def isNumRunChar (c : Char) : Bool := c.isDigit || c = ','

/-- Python regex `\s` / `str.strip` whitespace, ASCII part. -/
def isSpaceChar (c : Char) : Bool :=
  c = ' ' || c = '\t' || c = '\n' || c = '\r' || c = '\x0b' || c = '\x0c'

/-- The regex class `[€£$]` of currency glyphs. -/
def isCurSym (c : Char) : Bool := c = '€' || c = '£' || c = '$'

/-! ## Generic string helpers -/

/-- `str.strip()` on a character list: drop whitespace from both ends. -/
def listStrip (l : List Char) : List Char :=
  ((l.dropWhile isSpaceChar).reverse.dropWhile isSpaceChar).reverse

/-- `str.strip()`. -/
def pyStrip (s : String) : String := String.mk (listStrip s.data)

/-- `str.lower()` on one character (ASCII range, matching the ASCII model of
the data). -/
def lowerChar (c : Char) : Char :=
  if 'A' ≤ c && c ≤ 'Z' then Char.ofNat (c.toNat + 32) else c

/-- `str.lower()`. -/
def pyLower (s : String) : String := String.mk (s.data.map lowerChar)

/-- `str.replace(pat, rep)` worker: left-to-right, non-overlapping, every
occurrence; the fuel argument (initially the list length) only makes the
recursion structural and is never exhausted for the non-empty patterns this
program uses. -/
def replaceSubGo (pat rep : List Char) : Nat → List Char → List Char
  | _, [] => []
  | 0, l => l
  | fuel + 1, c :: t =>
    if pat.isPrefixOf (c :: t) then
      rep ++ replaceSubGo pat rep fuel ((c :: t).drop pat.length)
    else c :: replaceSubGo pat rep fuel t

/-- `str.replace(pat, rep)`. -/
def pyReplace (s pat rep : String) : String :=
  String.mk (replaceSubGo pat.data rep.data s.data.length s.data)

/-- `str.split('\n')` worker (reversed-accumulator). -/
def splitLinesGo : List Char → List Char → List (List Char)
  | [], acc => [acc.reverse]
  | '\n' :: t, acc => acc.reverse :: splitLinesGo t []
  | c :: t, acc => splitLinesGo t (c :: acc)

/-- `str.split('\n')`: like Python, the empty string yields `[""]` and a
trailing newline yields a trailing empty piece. -/
def pySplitNewline (s : String) : List String :=
  (splitLinesGo s.data []).map String.mk

/-- Python's `needle in hay` substring test, on character lists. -/
def subTok (needle : List Char) : List Char → Bool
  | [] => needle.isEmpty
  | c :: t => needle.isPrefixOf (c :: t) || subTok needle t

/-- Python's `needle in hay` substring test. -/
def containsTok (hay needle : String) : Bool := subTok needle.data hay.data

/-- Value of a digit string (most significant digit first). -/
def digitsToNat (l : List Char) : Nat :=
  l.foldl (fun a c => a * 10 + (c.toNat - '0'.toNat)) 0

/-- Python `float()` restricted to the strings this program converts: after
`.replace(',', '')` they consist of digits and dots only.  Conversion succeeds
iff the string holds at least one digit, at most one dot and nothing else;
`none` models the `ValueError` that `float` raises otherwise. -/
def pyFloatOfDigits (l : List Char) : Option ℚ :=
  if l.any Char.isDigit = false then none
  else if 1 < (l.filter (· = '.')).length then none
  else if l.any (fun c => !(c.isDigit || c = '.')) then none
  else
    let ip := l.takeWhile Char.isDigit
    match l.dropWhile Char.isDigit with
    | [] => some (Rat.divInt (Int.ofNat (digitsToNat ip)) 1)
    | '.' :: fp =>
      some (Rat.divInt
        (Int.ofNat (digitsToNat ip * Nat.pow 10 fp.length + digitsToNat fp))
        (Int.ofNat (Nat.pow 10 fp.length)))
    | _ => none

/-! ## Field extractors (`BaseTransactionParser` static methods) -/

/-- The `re.sub(r'[^\d.,€£$]', '', ...)` keep-set of `extract_amount`. -/
def keepAmountChar (c : Char) : Bool :=
  c.isDigit || c = '.' || c = ',' || c = '€' || c = '£' || c = '$'

/-- `re.search(r'([\d,]+\.?\d*)', s)`: the first (leftmost, then greedy) match
of a `[\d,]` run, an optional dot and a digit run.  The follower of `[\d,]+`
is `\.?` and the follower of `\.?` is `\d*`, which cannot fail, so the greedy
scan needs no backtracking. -/
def numberSearch : List Char → Option (List Char)
  | [] => none
  | c :: t =>
    if isNumRunChar c then
      let r1 := (c :: t).takeWhile isNumRunChar
      match (c :: t).dropWhile isNumRunChar with
      | '.' :: rest2 => some (r1 ++ '.' :: rest2.takeWhile Char.isDigit)
      | _ => some r1
    else numberSearch t

/-- The symbol-containment currency resolution inside `extract_amount`:
`'€' in s or 'â‚¬' in s` → EUR, elif `£`/mojibake-`£` → GBP, elif `$` → USD,
else the default GBP.  ISO letter codes are never consulted here. -/
def symbolCurrency (s : String) : String :=
  if containsTok s "€" || containsTok s "â‚¬" then "EUR"
  else if containsTok s "£" || containsTok s "Â£" then "GBP"
  else if containsTok s "$" then "USD"
  else "GBP"

/-- `BaseTransactionParser.extract_amount`.  The result `none` models an
uncaught `ValueError` raised by `float(...)`; `some (amount?, currency)`
models the returned dict. -/
def extract_amount (amount_str : String) : Option (Option ℚ × String) :=
  if amount_str = "" then some (none, "GBP")
  else
    let amount_clean := amount_str.data.filter keepAmountChar
    match numberSearch amount_clean with
    | some g =>
      match pyFloatOfDigits (g.filter (· ≠ ',')) with
      | some amount => some (some amount, symbolCurrency amount_str)
      | none => none
    | none => some (none, "GBP")

/-- `BaseTransactionParser.get_currency_code`: dict lookup over the stripped
symbol with default `'GBP'`; `none`/empty input (Python falsy) is `'GBP'`. -/
def get_currency_code (symbol : Option String) : String :=
  match symbol with
  | none => "GBP"
  | some s =>
    if s = "" then "GBP"
    else
      let k := pyStrip s
      if k = "€" || k = "â‚¬" || k = "EUR" then "EUR"
      else if k = "£" || k = "Â£" || k = "GBP" then "GBP"
      else if k = "$" || k = "USD" then "USD"
      else "GBP"

/-- One step of `re.sub(r"\s+", " ", field)`: each maximal whitespace run
becomes a single space.  The boolean records whether the previous character
was whitespace. -/
def collapseWsGo : Bool → List Char → List Char
  | _, [] => []
  | prevWs, c :: t =>
    if isSpaceChar c then
      if prevWs then collapseWsGo true t else ' ' :: collapseWsGo true t
    else c :: collapseWsGo false t

/-- `re.sub(r"\s+", " ", s)`. -/
def collapseWs (s : String) : String := String.mk (collapseWsGo false s.data)

/-- `BaseTransactionParser.clean_field`: `None` for falsy / `'none'` /
`'null'`, otherwise the mojibake-substitution table applied in order, then
whitespace collapsing and stripping. -/
def clean_field (field : String) : Option String :=
  if field = "" || pyLower field = "none" || pyLower field = "null"
     || pyLower field = "" then none
  else
    let f1 := pyReplace field "â‚¬" "€"
    let f2 := pyReplace f1 "Â£" "£"
    let f3 := pyReplace f2 "Â" ""
    let f4 := pyReplace f3 "‚" ""
    some (pyStrip (collapseWs f4))

/-! ## Timestamp extractor (`parse_datetime`) -/

/-- The value a successful `datetime.strptime` produces (fields used by this
program). -/
structure PyDateTime where
  year : Nat
  month : Nat
  day : Nat
  hour : Nat
  minute : Nat
  second : Nat
deriving DecidableEq, Repr

def isLeapYear (y : Nat) : Bool :=
  y % 4 = 0 && (y % 100 ≠ 0 || y % 400 = 0)

def daysInMonth (y m : Nat) : Nat :=
  if m = 2 then (if isLeapYear y then 29 else 28)
  else if m = 4 || m = 6 || m = 9 || m = 11 then 30
  else 31

/-- The range validation performed by `datetime.strptime` together with the
`datetime` constructor: `none` models the `ValueError` they raise on an
out-of-range component (caught by `parse_datetime`). -/
def mkDateTime (y mo d h mi s : Nat) : Option PyDateTime :=
  if 1 ≤ y ∧ y ≤ 9999 ∧ 1 ≤ mo ∧ mo ≤ 12 ∧ 1 ≤ d ∧ d ≤ daysInMonth y mo
     ∧ h ≤ 23 ∧ mi ≤ 59 ∧ s ≤ 59
  then some ⟨y, mo, d, h, mi, s⟩ else none

def d2val (a b : Char) : Nat := (a.toNat - 48) * 10 + (b.toNat - 48)

def d4val (a b c d : Char) : Nat :=
  ((a.toNat - 48) * 10 + (b.toNat - 48)) * 100 + d2val c d

/-- Shape `^\d{4}-\d{2}-\d{2} \d{2}:\d{2}:\d{2}$` with the components read by
`strptime('%Y-%m-%d %H:%M:%S')`, as `(y, mo, d, h, mi, s)`. -/
def isoShape : List Char → Option (Nat × Nat × Nat × Nat × Nat × Nat)
  | [y1, y2, y3, y4, '-', m1, m2, '-', dd1, dd2, ' ',
     h1, h2, ':', n1, n2, ':', s1, s2] =>
    if ([y1, y2, y3, y4, m1, m2, dd1, dd2, h1, h2, n1, n2, s1, s2].all Char.isDigit) then
      some (d4val y1 y2 y3 y4, d2val m1 m2, d2val dd1 dd2,
            d2val h1 h2, d2val n1 n2, d2val s1 s2)
    else none
  | _ => none

/-- Shape `^\d{2}/\d{2}/\d{4} \d{2}:\d{2}:\d{2}$` with the components read by
`strptime('%d/%m/%Y %H:%M:%S')`, as `(y, mo, d, h, mi, s)`. -/
def dmyShape : List Char → Option (Nat × Nat × Nat × Nat × Nat × Nat)
  | [dd1, dd2, '/', m1, m2, '/', y1, y2, y3, y4, ' ',
     h1, h2, ':', n1, n2, ':', s1, s2] =>
    if ([dd1, dd2, m1, m2, y1, y2, y3, y4, h1, h2, n1, n2, s1, s2].all Char.isDigit) then
      some (d4val y1 y2 y3 y4, d2val m1 m2, d2val dd1 dd2,
            d2val h1 h2, d2val n1 n2, d2val s1 s2)
    else none
  | _ => none

/-- `BaseTransactionParser.parse_datetime`.  In the source a `re.match`
(whose `$` would also accept one trailing newline) guards a `strptime` whose
`ValueError` is caught and turned into `None`; a trailing-newline string
passes the regex but makes `strptime` raise, so extensionally a value is
produced exactly for strings of the exact 19-character shape whose components
are in range — which is what this definition computes. -/
def parse_datetime (date_str : String) : Option PyDateTime :=
  if date_str = "" || pyLower date_str = "none" then none
  else
    match isoShape date_str.data with
    | some (y, mo, d, h, mi, s) => mkDateTime y mo d h mi s
    | none =>
      match dmyShape date_str.data with
      | some (y, mo, d, h, mi, s) => mkDateTime y mo d h mi s
      | none => none

/-! ## Regex scanners

Combinators covering every construct of the nine patterns.  Each call site is
one of the deterministic shapes described in the header comment. -/

/-- Consume an exact literal. -/
def dropLit : List Char → List Char → Option (List Char)
  | [], l => some l
  | _ :: _, [] => none
  | p :: ps, c :: cs => if c = p then dropLit ps cs else none

/-- Greedy `class+` whose follower is outside the class: the match is exactly
the maximal run, which must be non-empty. -/
def takeTok (p : Char → Bool) (l : List Char) : Option (List Char × List Char) :=
  let r := l.takeWhile p
  if r = [] then none else some (r, l.dropWhile p)

/-- Greedy `([^x]+)` followed by the literal `' ' :: x :: more`.  The maximal
run stops at the first `x`; a feasible backtrack position `q` needs `x` at
`q+1`, which no shorter run provides, so the unique candidate hands back the
run's final space. -/
def takeTokSpaceBefore (x : Char) (more : List Char) (l : List Char) :
    Option (List Char × List Char) :=
  let r := l.takeWhile (· ≠ x)
  match l.dropWhile (· ≠ x) with
  | [] => none
  | _ :: rest =>
    if r.getLast? = some ' ' && 2 ≤ r.length then
      (dropLit more rest).map (fun rr => (r.dropLast, rr))
    else none

/-- Greedy `([€£$]?[\d,.]+)`: the optional symbol is taken when present (if
the digit run after it is empty, the empty-option alternative starts at the
symbol itself, which is outside `[\d,.]`, so both alternatives fail). -/
def takeAmountTok (l : List Char) : Option (List Char × List Char) :=
  match l with
  | [] => none
  | c :: t =>
    if isCurSym c then (takeTok isNumTokChar t).map (fun x => (c :: x.1, x.2))
    else takeTok isNumTokChar l

/-- Trailing `(.+)$`: Python `.` excludes `'\n'` and `$` also matches just
before a final newline, so the group is the maximal newline-free run,
non-empty, followed by nothing or by a single final newline. -/
def takeRestOfLine (l : List Char) : Option (List Char) :=
  let r := l.takeWhile (· ≠ '\n')
  if r = [] then none
  else
    match l.dropWhile (· ≠ '\n') with
    | [] => some r
    | ['\n'] => some r
    | _ => none

/-- Trailing `([^>]+)>$`. -/
def takeAngleClose (l : List Char) : Option (List Char) :=
  let r := l.takeWhile (· ≠ '>')
  match l.dropWhile (· ≠ '>') with
  | [] => none
  | _ :: rest =>
    if r ≠ [] && (rest = [] || rest = ['\n']) then some r else none

/-- `(\d{4}-\d{2}-\d{2} \d{2}:\d{2}:\d{2})` as a captured token. -/
def takeIsoTok (l : List Char) : Option (List Char × List Char) :=
  if (isoShape (l.take 19)).isSome then some (l.take 19, l.drop 19) else none

/-- `(\d{2}/\d{2}/\d{4} \d{2}:\d{2}:\d{2})` as a captured token. -/
def takeDmyTok (l : List Char) : Option (List Char × List Char) :=
  if (dmyShape (l.take 19)).isSome then some (l.take 19, l.drop 19) else none

/-- `(â‚¬|€|£|Â£|\$)` of pattern 9, tried in alternation order (the
alternatives start with pairwise distinct characters, so order is immaterial
and no backtracking arises). -/
def takeMojiSym (l : List Char) : Option (List Char × List Char) :=
  if "â‚¬".data.isPrefixOf l then some ("â‚¬".data, l.drop 3)
  else if "€".data.isPrefixOf l then some ("€".data, l.drop 1)
  else if "£".data.isPrefixOf l then some ("£".data, l.drop 1)
  else if "Â£".data.isPrefixOf l then some ("Â£".data, l.drop 2)
  else if "$".data.isPrefixOf l then some ("$".data, l.drop 1)
  else none

/-- Capture groups of a six-group pattern, numbered as in the regex. -/
structure Caps6 where
  g1 : String
  g2 : String
  g3 : String
  g4 : String
  g5 : String
  g6 : String
deriving DecidableEq, Repr

/-- Capture groups of a seven-group pattern, numbered as in the regex. -/
structure Caps7 where
  g1 : String
  g2 : String
  g3 : String
  g4 : String
  g5 : String
  g6 : String
  g7 : String
deriving DecidableEq, Repr

/-- Pattern 1:
`^(\d{4}-\d{2}-\d{2} \d{2}:\d{2}:\d{2})::(\w+)::([\w-]+)::([\d,.]+)::([^:]+)::(.+)$` -/
def matchPattern1 (line : String) : Option Caps6 := do
  let (g1, r) ← takeIsoTok line.data
  let r ← dropLit "::".data r
  let (g2, r) ← takeTok isWordChar r
  let r ← dropLit "::".data r
  let (g3, r) ← takeTok isWordDashChar r
  let r ← dropLit "::".data r
  let (g4, r) ← takeTok isNumTokChar r
  let r ← dropLit "::".data r
  let (g5, r) ← takeTok (· ≠ ':') r
  let r ← dropLit "::".data r
  let g6 ← takeRestOfLine r
  pure ⟨String.mk g1, String.mk g2, String.mk g3, String.mk g4,
        String.mk g5, String.mk g6⟩

/-- Pattern 2:
`^usr:(\w+)\|([\w-]+)\|([€£$]?[\d,.]+)\|([^|]+)\|(\d{4}-\d{2}-\d{2} \d{2}:\d{2}:\d{2})\|(.+)$` -/
def matchPattern2 (line : String) : Option Caps6 := do
  let r ← dropLit "usr:".data line.data
  let (g1, r) ← takeTok isWordChar r
  let r ← dropLit "|".data r
  let (g2, r) ← takeTok isWordDashChar r
  let r ← dropLit "|".data r
  let (g3, r) ← takeAmountTok r
  let r ← dropLit "|".data r
  let (g4, r) ← takeTok (· ≠ '|') r
  let r ← dropLit "|".data r
  let (g5, r) ← takeIsoTok r
  let r ← dropLit "|".data r
  let g6 ← takeRestOfLine r
  pure ⟨String.mk g1, String.mk g2, String.mk g3, String.mk g4,
        String.mk g5, String.mk g6⟩

/-- Pattern 3:
`^(\d{4}-\d{2}-\d{2} \d{2}:\d{2}:\d{2}) >> \[(\w+)\] did ([\w-]+) - amt=([€£$]?[\d,.]+) - ([^/]+) // dev:(.+)$` -/
def matchPattern3 (line : String) : Option Caps6 := do
  let (g1, r) ← takeIsoTok line.data
  let r ← dropLit " >> [".data r
  let (g2, r) ← takeTok isWordChar r
  let r ← dropLit "] did ".data r
  let (g3, r) ← takeTok isWordDashChar r
  let r ← dropLit " - amt=".data r
  let (g4, r) ← takeAmountTok r
  let r ← dropLit " - ".data r
  let (g5, r) ← takeTokSpaceBefore '/' "/ dev:".data r
  let g6 ← takeRestOfLine r
  pure ⟨String.mk g1, String.mk g2, String.mk g3, String.mk g4,
        String.mk g5, String.mk g6⟩

/-- Pattern 4:
`^(\d{4}-\d{2}-\d{2} \d{2}:\d{2}:\d{2}) \| user: (\w+) \| txn: ([\w-]+) of ([€£$]?[\d,.]+) from ([^|]+) \| device: (.+)$` -/
def matchPattern4 (line : String) : Option Caps6 := do
  let (g1, r) ← takeIsoTok line.data
  let r ← dropLit " | user: ".data r
  let (g2, r) ← takeTok isWordChar r
  let r ← dropLit " | txn: ".data r
  let (g3, r) ← takeTok isWordDashChar r
  let r ← dropLit " of ".data r
  let (g4, r) ← takeAmountTok r
  let r ← dropLit " from ".data r
  let (g5, r) ← takeTokSpaceBefore '|' " device: ".data r
  let g6 ← takeRestOfLine r
  pure ⟨String.mk g1, String.mk g2, String.mk g3, String.mk g4,
        String.mk g5, String.mk g6⟩

/-- Pattern 5:
`^(\d{4}-\d{2}-\d{2} \d{2}:\d{2}:\d{2}) - user=(\w+) - action=([\w-]+) ([€£$]?[\d,.]+) - ATM: ([^-]+) - device=(.+)$` -/
def matchPattern5 (line : String) : Option Caps6 := do
  let (g1, r) ← takeIsoTok line.data
  let r ← dropLit " - user=".data r
  let (g2, r) ← takeTok isWordChar r
  let r ← dropLit " - action=".data r
  let (g3, r) ← takeTok isWordDashChar r
  let r ← dropLit " ".data r
  let (g4, r) ← takeAmountTok r
  let r ← dropLit " - ATM: ".data r
  let (g5, r) ← takeTokSpaceBefore '-' " device=".data r
  let g6 ← takeRestOfLine r
  pure ⟨String.mk g1, String.mk g2, String.mk g3, String.mk g4,
        String.mk g5, String.mk g6⟩

/-- Pattern 6:
`^(\d{2}/\d{2}/\d{4} \d{2}:\d{2}:\d{2}) ::: (\w+) \*\*\* ([\w-]+) ::: amt:([€£$]?[\d,.]+) @ ([^<]+) <([^>]+)>$` -/
def matchPattern6 (line : String) : Option Caps6 := do
  let (g1, r) ← takeDmyTok line.data
  let r ← dropLit " ::: ".data r
  let (g2, r) ← takeTok isWordChar r
  let r ← dropLit " *** ".data r
  let (g3, r) ← takeTok isWordDashChar r
  let r ← dropLit " ::: amt:".data r
  let (g4, r) ← takeAmountTok r
  let r ← dropLit " @ ".data r
  let (g5, r) ← takeTokSpaceBefore '<' [] r
  let g6 ← takeAngleClose r
  pure ⟨String.mk g1, String.mk g2, String.mk g3, String.mk g4,
        String.mk g5, String.mk g6⟩

/-- Pattern 7:
`^(\w+) (\d{4}-\d{2}-\d{2} \d{2}:\d{2}:\d{2}) ([\w-]+) ([\d,.]+) (\S+) (.+)$` -/
def matchPattern7 (line : String) : Option Caps6 := do
  let (g1, r) ← takeTok isWordChar line.data
  let r ← dropLit " ".data r
  let (g2, r) ← takeIsoTok r
  let r ← dropLit " ".data r
  let (g3, r) ← takeTok isWordDashChar r
  let r ← dropLit " ".data r
  let (g4, r) ← takeTok isNumTokChar r
  let r ← dropLit " ".data r
  let (g5, r) ← takeTok (fun c => !isSpaceChar c) r
  let r ← dropLit " ".data r
  let g6 ← takeRestOfLine r
  pure ⟨String.mk g1, String.mk g2, String.mk g3, String.mk g4,
        String.mk g5, String.mk g6⟩

/-- Pattern 8:
`^(\d{2}/\d{2}/\d{4} \d{2}:\d{2}:\d{2}) ::: (\w+) \*\*\* ([\w-]+) ::: amt:([\d,.]+)([€£$]) @ ([^<]+) <([^>]+)>$` -/
def matchPattern8 (line : String) : Option Caps7 := do
  let (g1, r) ← takeDmyTok line.data
  let r ← dropLit " ::: ".data r
  let (g2, r) ← takeTok isWordChar r
  let r ← dropLit " *** ".data r
  let (g3, r) ← takeTok isWordDashChar r
  let r ← dropLit " ::: amt:".data r
  let (g4, r) ← takeTok isNumTokChar r
  let (g5, r) ← (match r with
    | c :: t => if isCurSym c then some ([c], t) else none
    | [] => none)
  let r ← dropLit " @ ".data r
  let (g6, r) ← takeTokSpaceBefore '<' [] r
  let g7 ← takeAngleClose r
  pure ⟨String.mk g1, String.mk g2, String.mk g3, String.mk g4,
        String.mk g5, String.mk g6, String.mk g7⟩

/-- Pattern 9:
`^(\d{2}/\d{2}/\d{4} \d{2}:\d{2}:\d{2}) ::: (\w+) \*\*\* ([\w-]+) ::: amt:([\d,.]+)(â‚¬|€|£|Â£|\$) @ ([^<]+) <([^>]+)>$` -/
def matchPattern9 (line : String) : Option Caps7 := do
  let (g1, r) ← takeDmyTok line.data
  let r ← dropLit " ::: ".data r
  let (g2, r) ← takeTok isWordChar r
  let r ← dropLit " *** ".data r
  let (g3, r) ← takeTok isWordDashChar r
  let r ← dropLit " ::: amt:".data r
  let (g4, r) ← takeTok isNumTokChar r
  let (g5, r) ← takeMojiSym r
  let r ← dropLit " @ ".data r
  let (g6, r) ← takeTokSpaceBefore '<' [] r
  let g7 ← takeAngleClose r
  pure ⟨String.mk g1, String.mk g2, String.mk g3, String.mk g4,
        String.mk g5, String.mk g6, String.mk g7⟩

/-! ## Record assembly (`TransactionCleaner.parse_transaction_line`) -/

/-- The record built for one parsed line (the dict of
`parse_transaction_line`; `row_id` and `original_log` are always set). -/
structure TxRecord where
  row_id : Nat
  original_log : String
  datetime : Option PyDateTime := none
  user_id : Option String := none
  transaction_type : Option String := none
  amount : Option ℚ := none
  currency : Option String := none
  location : Option String := none
  device : Option String := none
deriving DecidableEq, Repr

/-- Field bindings of pattern 1.  `extract_amount` is evaluated on group 4
(the source calls it twice with the same argument); `none` models its
`ValueError` reaching the `except` handler, which drops the line. -/
def extractPattern1 (line : String) (row_id : Nat) (m : Caps6) : Option TxRecord :=
  match extract_amount m.g4 with
  | none => none
  | some amt =>
    some { row_id := row_id, original_log := line,
           datetime := parse_datetime m.g1,
           user_id := some m.g2,
           transaction_type := some m.g3,
           amount := amt.1,
           currency := some amt.2,
           location := clean_field m.g5,
           device := clean_field m.g6 }

/-- Field bindings of pattern 2 (user, type, amount, location, datetime,
device in group order). -/
def extractPattern2 (line : String) (row_id : Nat) (m : Caps6) : Option TxRecord :=
  match extract_amount m.g3 with
  | none => none
  | some amt =>
    some { row_id := row_id, original_log := line,
           user_id := some m.g1,
           transaction_type := some m.g2,
           amount := amt.1,
           currency := some amt.2,
           location := clean_field m.g4,
           datetime := parse_datetime m.g5,
           device := clean_field m.g6 }

/-- Field bindings of pattern 3; the action token's `-` are replaced by
`_`. -/
def extractPattern3 (line : String) (row_id : Nat) (m : Caps6) : Option TxRecord :=
  match extract_amount m.g4 with
  | none => none
  | some amt =>
    some { row_id := row_id, original_log := line,
           datetime := parse_datetime m.g1,
           user_id := some m.g2,
           transaction_type := some (pyReplace m.g3 "-" "_"),
           amount := amt.1,
           currency := some amt.2,
           location := clean_field m.g5,
           device := clean_field m.g6 }

/-- Field bindings of pattern 4. -/
def extractPattern4 (line : String) (row_id : Nat) (m : Caps6) : Option TxRecord :=
  match extract_amount m.g4 with
  | none => none
  | some amt =>
    some { row_id := row_id, original_log := line,
           datetime := parse_datetime m.g1,
           user_id := some m.g2,
           transaction_type := some m.g3,
           amount := amt.1,
           currency := some amt.2,
           location := clean_field m.g5,
           device := clean_field m.g6 }

/-- Field bindings of pattern 5. -/
def extractPattern5 (line : String) (row_id : Nat) (m : Caps6) : Option TxRecord :=
  match extract_amount m.g4 with
  | none => none
  | some amt =>
    some { row_id := row_id, original_log := line,
           datetime := parse_datetime m.g1,
           user_id := some m.g2,
           transaction_type := some m.g3,
           amount := amt.1,
           currency := some amt.2,
           location := clean_field m.g5,
           device := clean_field m.g6 }

/-- Field bindings of pattern 6; the action token is lowercased. -/
def extractPattern6 (line : String) (row_id : Nat) (m : Caps6) : Option TxRecord :=
  match extract_amount m.g4 with
  | none => none
  | some amt =>
    some { row_id := row_id, original_log := line,
           datetime := parse_datetime m.g1,
           user_id := some m.g2,
           transaction_type := some (pyLower m.g3),
           amount := amt.1,
           currency := some amt.2,
           location := clean_field m.g5,
           device := clean_field m.g6 }

/-- Field bindings of pattern 7: `float(group4.replace(',', ''))` directly
(its `ValueError` is modelled by `none`); currency is the literal default
`'GBP'` for this pattern. -/
def extractPattern7 (line : String) (row_id : Nat) (m : Caps6) : Option TxRecord :=
  match pyFloatOfDigits (m.g4.data.filter (· ≠ ',')) with
  | none => none
  | some amount =>
    some { row_id := row_id, original_log := line,
           user_id := some m.g1,
           datetime := parse_datetime m.g2,
           transaction_type := some m.g3,
           amount := some amount,
           currency := some "GBP",
           location := clean_field m.g5,
           device := clean_field m.g6 }

/-- Field bindings of pattern 8: direct `float` on group 4, currency from
`get_currency_code` on the symbol group, lowercased action token. -/
def extractPattern8 (line : String) (row_id : Nat) (m : Caps7) : Option TxRecord :=
  match pyFloatOfDigits (m.g4.data.filter (· ≠ ',')) with
  | none => none
  | some amount =>
    some { row_id := row_id, original_log := line,
           datetime := parse_datetime m.g1,
           user_id := some m.g2,
           transaction_type := some (pyLower m.g3),
           amount := some amount,
           currency := some (get_currency_code (some m.g5)),
           location := clean_field m.g6,
           device := clean_field m.g7 }

/-- Field bindings of pattern 9: like pattern 8 but the symbol group is first
passed through `clean_field` (mojibake repair) before `get_currency_code`. -/
def extractPattern9 (line : String) (row_id : Nat) (m : Caps7) : Option TxRecord :=
  match pyFloatOfDigits (m.g4.data.filter (· ≠ ',')) with
  | none => none
  | some amount =>
    some { row_id := row_id, original_log := line,
           datetime := parse_datetime m.g1,
           user_id := some m.g2,
           transaction_type := some (pyLower m.g3),
           amount := some amount,
           currency := some (get_currency_code (clean_field m.g5)),
           location := clean_field m.g6,
           device := clean_field m.g7 }

/-- `TransactionCleaner.parse_transaction_line`: the sentinel guard, then the
nine patterns tried in order; the first structural match is extracted, and an
extraction exception (modelled by the extractor returning `none`) is caught
by the `except` handler, dropping the line. -/
def parse_transaction_line (line : String) (row_id : Nat) : Option TxRecord :=
  if line = "" ∨ line = "\"\"" ∨ line = "MALFORMED_LOG" then none
  else
    match matchPattern1 line with
    | some m => extractPattern1 line row_id m
    | none =>
    match matchPattern2 line with
    | some m => extractPattern2 line row_id m
    | none =>
    match matchPattern3 line with
    | some m => extractPattern3 line row_id m
    | none =>
    match matchPattern4 line with
    | some m => extractPattern4 line row_id m
    | none =>
    match matchPattern5 line with
    | some m => extractPattern5 line row_id m
    | none =>
    match matchPattern6 line with
    | some m => extractPattern6 line row_id m
    | none =>
    match matchPattern7 line with
    | some m => extractPattern7 line row_id m
    | none =>
    match matchPattern8 line with
    | some m => extractPattern8 line row_id m
    | none =>
    match matchPattern9 line with
    | some m => extractPattern9 line row_id m
    | none => none

/-! ## Batch pipeline (`TransactionCleaner.clean_transaction_logs`) -/

/-- The line filter: split on newlines, strip, drop empties, the quoted-empty
and `MALFORMED_LOG` sentinels, the `raw_log` header and any line starting
with `raw_log`. -/
def validLines (raw_content : String) : List String :=
  ((pySplitNewline raw_content).map pyStrip).filter (fun l =>
    l ≠ "" && l ≠ "\"\"" && l ≠ "MALFORMED_LOG" && l ≠ "raw_log"
      && !("raw_log".data.isPrefixOf l.data))

/-- The `for idx, line in enumerate(valid_lines)` loop: parse each line with
row ordinal `idx + 1`, appending only the successfully parsed records. -/
def assembleLoop : List String → Nat → List TxRecord
  | [], _ => []
  | line :: rest, idx =>
    match parse_transaction_line line (idx + 1) with
    | some record => record :: assembleLoop rest (idx + 1)
    | none => assembleLoop rest (idx + 1)

/-- The non-empty-dataframe post-processing: `to_datetime(errors='coerce')`,
`to_numeric(errors='coerce')` and `astype(int)` do not change values already
parsed (or absent) in this model; the three `fillna` calls fill
location/device with `"Unknown"` and currency with `"USD"`. -/
def postProcessRecord (r : TxRecord) : TxRecord :=
  { r with location := some (r.location.getD "Unknown"),
           device := some (r.device.getD "Unknown"),
           currency := some (r.currency.getD "USD") }

/-- The whole pipeline applied to the raw text blob (the body of
`clean_transaction_logs` after the input source has been read). -/
def cleanContent (raw_content : String) : List TxRecord :=
  let records := assembleLoop (validLines raw_content) 0
  if records.isEmpty then records else records.map postProcessRecord

/-- Python truthiness of an optional string argument (`None` and `''` are
falsy). -/
def strTruthy : Option String → Bool
  | none => false
  | some s => s ≠ ""

/-- `TransactionCleaner.clean_transaction_logs`.  The single upfront file
read `Path(csv_file_path).read_text()` is modelled by the ambient file system
`fs` mapping a path to its content; `Except.error` models the raised
`ValueError`. -/
def clean_transaction_logs (fs : String → String)
    (csv_file_path raw_data : Option String) : Except String (List TxRecord) :=
  if strTruthy csv_file_path then
    Except.ok (cleanContent (fs (csv_file_path.getD "")))
  else if strTruthy raw_data then
    Except.ok (cleanContent (raw_data.getD ""))
  else
    Except.error "Either csv_file_path or raw_data must be provided"

/-! ## Indexed views of the grammar registry (for the ordering claims) -/

/-- Structural match of the `i`-th pattern (1-based), the `matches` side of a
grammar. -/
def structMatch (i : Nat) (line : String) : Bool :=
  if i = 1 then (matchPattern1 line).isSome
  else if i = 2 then (matchPattern2 line).isSome
  else if i = 3 then (matchPattern3 line).isSome
  else if i = 4 then (matchPattern4 line).isSome
  else if i = 5 then (matchPattern5 line).isSome
  else if i = 6 then (matchPattern6 line).isSome
  else if i = 7 then (matchPattern7 line).isSome
  else if i = 8 then (matchPattern8 line).isSome
  else if i = 9 then (matchPattern9 line).isSome
  else false

/-- Match-then-extract of the `i`-th pattern (1-based), the `extract` side of
a grammar: `none` when the pattern does not match structurally or when its
field extraction raises. -/
def grammarExtract (i : Nat) (line : String) (row_id : Nat) : Option TxRecord :=
  if i = 1 then (matchPattern1 line).bind (extractPattern1 line row_id)
  else if i = 2 then (matchPattern2 line).bind (extractPattern2 line row_id)
  else if i = 3 then (matchPattern3 line).bind (extractPattern3 line row_id)
  else if i = 4 then (matchPattern4 line).bind (extractPattern4 line row_id)
  else if i = 5 then (matchPattern5 line).bind (extractPattern5 line row_id)
  else if i = 6 then (matchPattern6 line).bind (extractPattern6 line row_id)
  else if i = 7 then (matchPattern7 line).bind (extractPattern7 line row_id)
  else if i = 8 then (matchPattern8 line).bind (extractPattern8 line row_id)
  else if i = 9 then (matchPattern9 line).bind (extractPattern9 line row_id)
  else none

/-- "Exactly matching one of the two layouts" of the timestamp extractor:
the 19-character shape with all components in `strptime`/`datetime` range. -/
def matchesLayout (s : String) : Bool :=
  match isoShape s.data with
  | some (y, mo, d, h, mi, sec) => (mkDateTime y mo d h mi sec).isSome
  | none =>
    match dmyShape s.data with
    | some (y, mo, d, h, mi, sec) => (mkDateTime y mo d h mi sec).isSome
    | none => false

/-! ## Helper lemmas -/

theorem eq_none_of_isSome_false {α : Type} {o : Option α}
    (h : o.isSome = false) : o = none := by
  cases o <;> simp_all

/-- Dispatch lemma: when the `i`-th pattern is the first structural match,
`parse_transaction_line` returns exactly that grammar's extraction (which may
itself be `none` when field extraction raises). -/
theorem parse_eq_grammarExtract_of_first (line : String) (r i : Nat)
    (h1 : 1 ≤ i) (h9 : i ≤ 9)
    (hm : structMatch i line = true)
    (hp : ∀ j, j < i → 1 ≤ j → structMatch j line = false) :
    parse_transaction_line line r = grammarExtract i line r := by
  have hguard : ¬(line = "" ∨ line = "\"\"" ∨ line = "MALFORMED_LOG") := by
    rintro (rfl | rfl | rfl) <;> (interval_cases i <;> revert hm <;> decide)
  have e1 : 1 < i → matchPattern1 line = none := fun h =>
    eq_none_of_isSome_false (by simpa [structMatch] using hp 1 h (by omega))
  have e2 : 2 < i → matchPattern2 line = none := fun h =>
    eq_none_of_isSome_false (by simpa [structMatch] using hp 2 h (by omega))
  have e3 : 3 < i → matchPattern3 line = none := fun h =>
    eq_none_of_isSome_false (by simpa [structMatch] using hp 3 h (by omega))
  have e4 : 4 < i → matchPattern4 line = none := fun h =>
    eq_none_of_isSome_false (by simpa [structMatch] using hp 4 h (by omega))
  have e5 : 5 < i → matchPattern5 line = none := fun h =>
    eq_none_of_isSome_false (by simpa [structMatch] using hp 5 h (by omega))
  have e6 : 6 < i → matchPattern6 line = none := fun h =>
    eq_none_of_isSome_false (by simpa [structMatch] using hp 6 h (by omega))
  have e7 : 7 < i → matchPattern7 line = none := fun h =>
    eq_none_of_isSome_false (by simpa [structMatch] using hp 7 h (by omega))
  have e8 : 8 < i → matchPattern8 line = none := fun h =>
    eq_none_of_isSome_false (by simpa [structMatch] using hp 8 h (by omega))
  interval_cases i
  · obtain ⟨m, hm'⟩ := Option.isSome_iff_exists.mp (by simpa [structMatch] using hm)
    simp only [parse_transaction_line, grammarExtract, if_neg hguard, hm']
    simp
  · obtain ⟨m, hm'⟩ := Option.isSome_iff_exists.mp (by simpa [structMatch] using hm)
    simp only [parse_transaction_line, grammarExtract, if_neg hguard,
      e1 (by omega), hm']
    simp
  · obtain ⟨m, hm'⟩ := Option.isSome_iff_exists.mp (by simpa [structMatch] using hm)
    simp only [parse_transaction_line, grammarExtract, if_neg hguard,
      e1 (by omega), e2 (by omega), hm']
    simp
  · obtain ⟨m, hm'⟩ := Option.isSome_iff_exists.mp (by simpa [structMatch] using hm)
    simp only [parse_transaction_line, grammarExtract, if_neg hguard,
      e1 (by omega), e2 (by omega), e3 (by omega), hm']
    simp
  · obtain ⟨m, hm'⟩ := Option.isSome_iff_exists.mp (by simpa [structMatch] using hm)
    simp only [parse_transaction_line, grammarExtract, if_neg hguard,
      e1 (by omega), e2 (by omega), e3 (by omega), e4 (by omega), hm']
    simp
  · obtain ⟨m, hm'⟩ := Option.isSome_iff_exists.mp (by simpa [structMatch] using hm)
    simp only [parse_transaction_line, grammarExtract, if_neg hguard,
      e1 (by omega), e2 (by omega), e3 (by omega), e4 (by omega), e5 (by omega),
      hm']
    simp
  · obtain ⟨m, hm'⟩ := Option.isSome_iff_exists.mp (by simpa [structMatch] using hm)
    simp only [parse_transaction_line, grammarExtract, if_neg hguard,
      e1 (by omega), e2 (by omega), e3 (by omega), e4 (by omega), e5 (by omega),
      e6 (by omega), hm']
    simp
  · obtain ⟨m, hm'⟩ := Option.isSome_iff_exists.mp (by simpa [structMatch] using hm)
    simp only [parse_transaction_line, grammarExtract, if_neg hguard,
      e1 (by omega), e2 (by omega), e3 (by omega), e4 (by omega), e5 (by omega),
      e6 (by omega), e7 (by omega), hm']
    simp
  · obtain ⟨m, hm'⟩ := Option.isSome_iff_exists.mp (by simpa [structMatch] using hm)
    simp only [parse_transaction_line, grammarExtract, if_neg hguard,
      e1 (by omega), e2 (by omega), e3 (by omega), e4 (by omega), e5 (by omega),
      e6 (by omega), e7 (by omega), e8 (by omega), hm']
    simp

/-- The currency returned by a non-raising `extract_amount` is one of the
three codes. -/
theorem extract_amount_snd_mem {s : String} {p : Option ℚ × String}
    (h : extract_amount s = some p) :
    p.2 = "EUR" ∨ p.2 = "GBP" ∨ p.2 = "USD" := by
  unfold extract_amount at h
  split at h
  · cases h; right; left; rfl
  · dsimp only at h
    split at h
    · split at h
      · cases h
        unfold symbolCurrency
        split_ifs <;> simp
      · cases h
    · cases h; right; left; rfl

/-- `get_currency_code` always returns one of the three codes. -/
theorem get_currency_code_mem (o : Option String) :
    get_currency_code o = "EUR" ∨ get_currency_code o = "GBP" ∨
    get_currency_code o = "USD" := by
  unfold get_currency_code
  cases o with
  | none => right; left; rfl
  | some s =>
    dsimp only
    split_ifs <;> simp

/-- Field facts about a record produced by pattern 1's extractor. -/
theorem extractPattern1_spec {l : String} {r : Nat} {m : Caps6} {rec : TxRecord}
    (h : extractPattern1 l r m = some rec) :
    rec.row_id = r ∧ rec.original_log = l ∧
    (rec.currency = some "EUR" ∨ rec.currency = some "GBP" ∨
     rec.currency = some "USD") ∧
    rec.transaction_type = some m.g3 := by
  unfold extractPattern1 at h
  split at h
  · cases h
  next amt heq =>
    cases h
    refine ⟨rfl, rfl, ?_, rfl⟩
    rcases extract_amount_snd_mem heq with h' | h' | h' <;> simp [h']

/-- Field facts about a record produced by pattern 2's extractor. -/
theorem extractPattern2_spec {l : String} {r : Nat} {m : Caps6} {rec : TxRecord}
    (h : extractPattern2 l r m = some rec) :
    rec.row_id = r ∧ rec.original_log = l ∧
    (rec.currency = some "EUR" ∨ rec.currency = some "GBP" ∨
     rec.currency = some "USD") ∧
    rec.transaction_type = some m.g2 := by
  unfold extractPattern2 at h
  split at h
  · cases h
  next amt heq =>
    cases h
    refine ⟨rfl, rfl, ?_, rfl⟩
    rcases extract_amount_snd_mem heq with h' | h' | h' <;> simp [h']

/-- Field facts about a record produced by pattern 3's extractor. -/
theorem extractPattern3_spec {l : String} {r : Nat} {m : Caps6} {rec : TxRecord}
    (h : extractPattern3 l r m = some rec) :
    rec.row_id = r ∧ rec.original_log = l ∧
    (rec.currency = some "EUR" ∨ rec.currency = some "GBP" ∨
     rec.currency = some "USD") ∧
    rec.transaction_type = some (pyReplace m.g3 "-" "_") := by
  unfold extractPattern3 at h
  split at h
  · cases h
  next amt heq =>
    cases h
    refine ⟨rfl, rfl, ?_, rfl⟩
    rcases extract_amount_snd_mem heq with h' | h' | h' <;> simp [h']

/-- Field facts about a record produced by pattern 4's extractor. -/
theorem extractPattern4_spec {l : String} {r : Nat} {m : Caps6} {rec : TxRecord}
    (h : extractPattern4 l r m = some rec) :
    rec.row_id = r ∧ rec.original_log = l ∧
    (rec.currency = some "EUR" ∨ rec.currency = some "GBP" ∨
     rec.currency = some "USD") ∧
    rec.transaction_type = some m.g3 := by
  unfold extractPattern4 at h
  split at h
  · cases h
  next amt heq =>
    cases h
    refine ⟨rfl, rfl, ?_, rfl⟩
    rcases extract_amount_snd_mem heq with h' | h' | h' <;> simp [h']

/-- Field facts about a record produced by pattern 5's extractor. -/
theorem extractPattern5_spec {l : String} {r : Nat} {m : Caps6} {rec : TxRecord}
    (h : extractPattern5 l r m = some rec) :
    rec.row_id = r ∧ rec.original_log = l ∧
    (rec.currency = some "EUR" ∨ rec.currency = some "GBP" ∨
     rec.currency = some "USD") ∧
    rec.transaction_type = some m.g3 := by
  unfold extractPattern5 at h
  split at h
  · cases h
  next amt heq =>
    cases h
    refine ⟨rfl, rfl, ?_, rfl⟩
    rcases extract_amount_snd_mem heq with h' | h' | h' <;> simp [h']

/-- Field facts about a record produced by pattern 6's extractor. -/
theorem extractPattern6_spec {l : String} {r : Nat} {m : Caps6} {rec : TxRecord}
    (h : extractPattern6 l r m = some rec) :
    rec.row_id = r ∧ rec.original_log = l ∧
    (rec.currency = some "EUR" ∨ rec.currency = some "GBP" ∨
     rec.currency = some "USD") ∧
    rec.transaction_type = some (pyLower m.g3) := by
  unfold extractPattern6 at h
  split at h
  · cases h
  next amt heq =>
    cases h
    refine ⟨rfl, rfl, ?_, rfl⟩
    rcases extract_amount_snd_mem heq with h' | h' | h' <;> simp [h']

/-- Field facts about a record produced by pattern 7's extractor. -/
theorem extractPattern7_spec {l : String} {r : Nat} {m : Caps6} {rec : TxRecord}
    (h : extractPattern7 l r m = some rec) :
    rec.row_id = r ∧ rec.original_log = l ∧
    (rec.currency = some "EUR" ∨ rec.currency = some "GBP" ∨
     rec.currency = some "USD") ∧
    rec.transaction_type = some m.g3 := by
  unfold extractPattern7 at h
  split at h
  · cases h
  next amount heq =>
    cases h
    exact ⟨rfl, rfl, Or.inr (Or.inl rfl), rfl⟩

/-- Field facts about a record produced by pattern 8's extractor. -/
theorem extractPattern8_spec {l : String} {r : Nat} {m : Caps7} {rec : TxRecord}
    (h : extractPattern8 l r m = some rec) :
    rec.row_id = r ∧ rec.original_log = l ∧
    (rec.currency = some "EUR" ∨ rec.currency = some "GBP" ∨
     rec.currency = some "USD") ∧
    rec.transaction_type = some (pyLower m.g3) := by
  unfold extractPattern8 at h
  split at h
  · cases h
  next amount heq =>
    cases h
    refine ⟨rfl, rfl, ?_, rfl⟩
    rcases get_currency_code_mem (some m.g5) with h' | h' | h' <;> simp [h']

/-- Field facts about a record produced by pattern 9's extractor. -/
theorem extractPattern9_spec {l : String} {r : Nat} {m : Caps7} {rec : TxRecord}
    (h : extractPattern9 l r m = some rec) :
    rec.row_id = r ∧ rec.original_log = l ∧
    (rec.currency = some "EUR" ∨ rec.currency = some "GBP" ∨
     rec.currency = some "USD") ∧
    rec.transaction_type = some (pyLower m.g3) := by
  unfold extractPattern9 at h
  split at h
  · cases h
  next amount heq =>
    cases h
    refine ⟨rfl, rfl, ?_, rfl⟩
    rcases get_currency_code_mem (clean_field m.g5) with h' | h' | h' <;> simp [h']

/-- A record produced by `parse_transaction_line` carries its row ordinal,
its verbatim source line, and a currency among the three codes. -/
theorem parse_transaction_line_spec {l : String} {r : Nat} {rec : TxRecord}
    (h : parse_transaction_line l r = some rec) :
    rec.row_id = r ∧ rec.original_log = l ∧
    (rec.currency = some "EUR" ∨ rec.currency = some "GBP" ∨
     rec.currency = some "USD") := by
  unfold parse_transaction_line at h
  split at h
  · cases h
  · split at h
    · exact ⟨(extractPattern1_spec h).1, (extractPattern1_spec h).2.1,
             (extractPattern1_spec h).2.2.1⟩
    split at h
    · exact ⟨(extractPattern2_spec h).1, (extractPattern2_spec h).2.1,
             (extractPattern2_spec h).2.2.1⟩
    split at h
    · exact ⟨(extractPattern3_spec h).1, (extractPattern3_spec h).2.1,
             (extractPattern3_spec h).2.2.1⟩
    split at h
    · exact ⟨(extractPattern4_spec h).1, (extractPattern4_spec h).2.1,
             (extractPattern4_spec h).2.2.1⟩
    split at h
    · exact ⟨(extractPattern5_spec h).1, (extractPattern5_spec h).2.1,
             (extractPattern5_spec h).2.2.1⟩
    split at h
    · exact ⟨(extractPattern6_spec h).1, (extractPattern6_spec h).2.1,
             (extractPattern6_spec h).2.2.1⟩
    split at h
    · exact ⟨(extractPattern7_spec h).1, (extractPattern7_spec h).2.1,
             (extractPattern7_spec h).2.2.1⟩
    split at h
    · exact ⟨(extractPattern8_spec h).1, (extractPattern8_spec h).2.1,
             (extractPattern8_spec h).2.2.1⟩
    split at h
    · exact ⟨(extractPattern9_spec h).1, (extractPattern9_spec h).2.1,
             (extractPattern9_spec h).2.2.1⟩
    · cases h

/-- Every record collected by the batch loop comes from the line at its
ordinal: position, verbatim text and currency facts. -/
theorem assembleLoop_mem_spec (ls : List String) :
    ∀ (idx : Nat) (rec : TxRecord), rec ∈ assembleLoop ls idx →
      ∃ k, ls[k]? = some rec.original_log ∧ rec.row_id = idx + k + 1 ∧
        (rec.currency = some "EUR" ∨ rec.currency = some "GBP" ∨
         rec.currency = some "USD") := by
  induction ls with
  | nil => intro idx rec h; simp [assembleLoop] at h
  | cons line rest ih =>
    intro idx rec h
    unfold assembleLoop at h
    split at h
    next record heq =>
      rcases List.mem_cons.mp h with rfl | hmem
      · obtain ⟨h1, h2, h3⟩ := parse_transaction_line_spec heq
        exact ⟨0, by simp [h2], by omega, h3⟩
      · obtain ⟨k, h1, h2, h3⟩ := ih (idx + 1) rec hmem
        exact ⟨k + 1, by simpa using h1, by omega, h3⟩
    next heq =>
      obtain ⟨k, h1, h2, h3⟩ := ih (idx + 1) rec h
      exact ⟨k + 1, by simpa using h1, by omega, h3⟩

/-- The row ordinals of the collected records are strictly increasing. -/
theorem assembleLoop_pairwise (ls : List String) :
    ∀ idx : Nat,
      (assembleLoop ls idx).Pairwise (fun a b => a.row_id < b.row_id) := by
  induction ls with
  | nil => intro idx; simp [assembleLoop]
  | cons line rest ih =>
    intro idx
    unfold assembleLoop
    split
    next record heq =>
      refine List.Pairwise.cons ?_ (ih (idx + 1))
      intro b hb
      obtain ⟨k, _, h2, _⟩ := assembleLoop_mem_spec rest (idx + 1) b hb
      have hr : record.row_id = idx + 1 := (parse_transaction_line_spec heq).1
      omega
    next heq => exact ih (idx + 1)

/-- Unfolding equation of the batch loop on a non-empty line list. -/
theorem assembleLoop_cons (line : String) (rest : List String) (idx : Nat) :
    assembleLoop (line :: rest) idx =
      match parse_transaction_line line (idx + 1) with
      | some record => record :: assembleLoop rest (idx + 1)
      | none => assembleLoop rest (idx + 1) := rfl

/-- The batch loop processes a concatenation as the two halves in sequence:
a failure in the first half never stops the second half. -/
theorem assembleLoop_append (ls1 ls2 : List String) :
    ∀ idx : Nat, assembleLoop (ls1 ++ ls2) idx =
      assembleLoop ls1 idx ++ assembleLoop ls2 (idx + ls1.length) := by
  induction ls1 with
  | nil => intro idx; simp [assembleLoop]
  | cons line rest ih =>
    intro idx
    rw [List.cons_append, assembleLoop_cons, assembleLoop_cons]
    cases hp : parse_transaction_line line (idx + 1) with
    | some record =>
      dsimp only
      rw [ih (idx + 1), List.cons_append, List.length_cons,
        show idx + 1 + rest.length = idx + (rest.length + 1) by omega]
    | none =>
      dsimp only
      rw [ih (idx + 1), List.length_cons,
        show idx + 1 + rest.length = idx + (rest.length + 1) by omega]

/-- Membership in the final dataset factors through the batch loop and the
per-record post-processing. -/
theorem cleanContent_mem {content : String} {rec : TxRecord}
    (h : rec ∈ cleanContent content) :
    ∃ rec0, rec0 ∈ assembleLoop (validLines content) 0 ∧
      rec = postProcessRecord rec0 := by
  unfold cleanContent at h
  dsimp only at h
  split at h
  · simp_all [List.isEmpty_iff]
  · obtain ⟨rec0, h1, h2⟩ := List.mem_map.mp h
    exact ⟨rec0, h1, h2.symm⟩

theorem postProcessRecord_row_id (r : TxRecord) :
    (postProcessRecord r).row_id = r.row_id := rfl

theorem postProcessRecord_original_log (r : TxRecord) :
    (postProcessRecord r).original_log = r.original_log := rfl

/-! ## Claim theorems -/

/-- C1: for every input line and row ordinal, `parse_transaction_line` tries
the nine grammar patterns in their fixed priority order and produces the
record from the first pattern whose structural regex matches the line; a line
that structurally matches two or more patterns always yields the bindings of
the highest-priority (earliest) matching pattern, with no backtracking or
best-match scoring. -/
theorem c1_first_match_wins (line : String) (r i : Nat)
    (h1 : 1 ≤ i) (h9 : i ≤ 9)
    (hm : structMatch i line = true)
    (hp : ∀ j, j < i → 1 ≤ j → structMatch j line = false) :
    parse_transaction_line line r = grammarExtract i line r :=
  parse_eq_grammarExtract_of_first line r i h1 h9 hm hp

/-- Witness for C1 at a line that structurally matches both pattern 8 and
pattern 9: the higher-priority pattern 8 resolves it. -/
theorem c1_first_match_wins_witness :
    structMatch 8 "14/05/2023 14:05:31 ::: user123 *** TOP-UP ::: amt:500£ @ Location <Device>" = true ∧
    structMatch 9 "14/05/2023 14:05:31 ::: user123 *** TOP-UP ::: amt:500£ @ Location <Device>" = true ∧
    parse_transaction_line
      "14/05/2023 14:05:31 ::: user123 *** TOP-UP ::: amt:500£ @ Location <Device>" 1 =
    grammarExtract 8
      "14/05/2023 14:05:31 ::: user123 *** TOP-UP ::: amt:500£ @ Location <Device>" 1 :=
  ⟨by decide, by decide,
   c1_first_match_wins _ 1 8 (by decide) (by decide) (by decide) (by decide)⟩

/-- Every dataset the entry point returns is the pipeline output for some
content blob. -/
theorem clean_transaction_logs_ok {fs : String → String}
    {p r : Option String} {ds : List TxRecord}
    (h : clean_transaction_logs fs p r = Except.ok ds) :
    ∃ c, ds = cleanContent c := by
  unfold clean_transaction_logs at h
  split_ifs at h
  all_goals exact ⟨_, by injection h with h; exact h.symm⟩

/-- C2: in every Dataset returned by `clean_transaction_logs`, `row_id` is
strictly increasing and equals the 1-based position of the record's source
line within the filtered line sequence; ordinals are assigned contiguously
over the filtered sequence (position `row_id - 1` of the filtered list holds
the record's verbatim source line) regardless of how many earlier lines were
dropped. -/
theorem c2_row_ordinals :
    (∀ content : String,
       (cleanContent content).Pairwise (fun a b => a.row_id < b.row_id) ∧
       ∀ rec ∈ cleanContent content,
         1 ≤ rec.row_id ∧
         (validLines content)[rec.row_id - 1]? = some rec.original_log) ∧
    (∀ fs p r ds, clean_transaction_logs fs p r = Except.ok ds →
       ∃ c, ds = cleanContent c) := by
  constructor
  · intro content
    constructor
    · unfold cleanContent
      dsimp only
      split
      · exact assembleLoop_pairwise _ 0
      · refine List.Pairwise.map _ ?_ (assembleLoop_pairwise _ 0)
        intro a b hab
        rwa [postProcessRecord_row_id, postProcessRecord_row_id]
    · intro rec hrec
      obtain ⟨rec0, h0, rfl⟩ := cleanContent_mem hrec
      obtain ⟨k, h1, h2, _⟩ := assembleLoop_mem_spec _ 0 rec0 h0
      refine ⟨by rw [postProcessRecord_row_id]; omega, ?_⟩
      rw [postProcessRecord_row_id, postProcessRecord_original_log, h2,
        show 0 + k + 1 - 1 = k by omega]
      exact h1
  · intro fs p r ds h
    exact clean_transaction_logs_ok h

/-- Witness for C2 on a two-line blob whose first filtered line fails to
parse: the surviving record carries ordinal 2 and the filtered list holds its
verbatim line at position 1. -/
theorem c2_row_ordinals_witness :
    1 ≤ (2 : Nat) ∧
    (validLines "garbage here\nusr:user123|top-up|£500|Location|2023-05-14 14:05:31|Device")[(1 : Nat)]? =
      some "usr:user123|top-up|£500|Location|2023-05-14 14:05:31|Device" :=
  (c2_row_ordinals.1 "garbage here\nusr:user123|top-up|£500|Location|2023-05-14 14:05:31|Device").2
    (⟨2, "usr:user123|top-up|£500|Location|2023-05-14 14:05:31|Device",
      some ⟨2023, 5, 14, 14, 5, 31⟩, some "user123", some "top-up",
      some (Rat.divInt 500 1), some "GBP", some "Location", some "Device"⟩ : TxRecord)
    (by decide)

/-- C3 counterexample: the claim says a call fails only when no input source
is supplied and that an empty input blob yields an empty Dataset, but
supplying the empty string as in-memory raw text (a supplied input source
and an empty blob) raises the input error, because the source tests Python
truthiness rather than presence. -/
theorem c3_counterexample :
    clean_transaction_logs (fun _ => "") none (some "") =
      Except.error "Either csv_file_path or raw_data must be provided" := rfl

/-- C3 amended: the input error is raised if and only if neither argument is
truthy (a `None` or empty-string path and a `None` or empty-string raw text);
every truthy input source yields a complete dataset with no error, and an
empty blob read from a truthy file path yields an empty dataset. -/
theorem c3_amended :
    (∀ fs p r, (∃ e, clean_transaction_logs fs p r = Except.error e) ↔
       (strTruthy p = false ∧ strTruthy r = false)) ∧
    (∀ fs p r, strTruthy p = true ∨ strTruthy r = true →
       ∃ ds, clean_transaction_logs fs p r = Except.ok ds) ∧
    (∀ fs path, strTruthy (some path) = true → fs path = "" →
       clean_transaction_logs fs (some path) none = Except.ok []) ∧
    cleanContent "" = [] := by
  refine ⟨?_, ?_, ?_, by decide⟩
  · intro fs p r
    constructor
    · rintro ⟨e, he⟩
      unfold clean_transaction_logs at he
      split_ifs at he with h1 h2
      all_goals simp only [Bool.not_eq_true] at h1 h2
      all_goals exact ⟨h1, h2⟩
    · rintro ⟨hp, hr⟩
      refine ⟨"Either csv_file_path or raw_data must be provided", ?_⟩
      simp [clean_transaction_logs, hp, hr]
  · intro fs p r h
    by_cases hb : strTruthy p = true
    · exact ⟨_, by unfold clean_transaction_logs; rw [if_pos hb]⟩
    · have hr : strTruthy r = true := by tauto
      exact ⟨_, by unfold clean_transaction_logs; rw [if_neg hb, if_pos hr]⟩
  · intro fs path ht hfs
    unfold clean_transaction_logs
    rw [if_pos ht, show (some path).getD "" = path from rfl, hfs]
    exact congrArg Except.ok (by decide)

/-- Witness for C3 (amended): a truthy path to an empty file yields the empty
dataset. -/
theorem c3_amended_witness :
    clean_transaction_logs (fun _ => "") (some "logs.csv") none =
      Except.ok [] :=
  c3_amended.2.2.1 (fun _ => "") "logs.csv" (by decide) rfl

/-- C4 counterexample: the claim says a token containing an ISO code and no
symbol resolves through the mapping to that code, and that the extractor
never raises; but `extract_amount "100USD"` yields the default GBP (the ISO
code is discarded by the keep-filter and never consulted), and
`extract_amount ","` raises `ValueError` (modelled by `none`) because the
matched numeric run `","` fails `float` conversion. -/
theorem c4_counterexample :
    extract_amount "100USD" = some (some (Rat.divInt 100 1), "GBP") ∧
    extract_amount "," = none := ⟨by decide, by decide⟩

/-- C4 amended: `extract_amount` resolves currency from symbol glyphs
(including mojibake) only, defaulting to GBP even when an ISO code is
present; the symbol/mojibake/ISO-code mapping lives in `get_currency_code`,
which maps the three ISO codes to themselves; `extract_amount` returns
amount `null` with GBP when no numeric run is found, but raises (caught by
the line parser) when the matched numeric run fails float conversion. -/
theorem c4_amended :
    (∀ s a c, extract_amount s = some (some a, c) → c = symbolCurrency s) ∧
    (∀ s c, extract_amount s = some (none, c) → c = "GBP") ∧
    get_currency_code (some "EUR") = "EUR" ∧
    get_currency_code (some "GBP") = "GBP" ∧
    get_currency_code (some "USD") = "USD" ∧
    (∀ s, containsTok s "€" = false → containsTok s "â‚¬" = false →
       containsTok s "£" = false → containsTok s "Â£" = false →
       containsTok s "$" = false → symbolCurrency s = "GBP") := by
  refine ⟨?_, ?_, by decide, by decide, by decide, ?_⟩
  · intro s a c h
    unfold extract_amount at h
    split at h
    · exact absurd h (by simp)
    · dsimp only at h
      split at h
      · split at h
        · cases h; rfl
        · cases h
      · exact absurd h (by simp)
  · intro s c h
    unfold extract_amount at h
    split at h
    · cases h; rfl
    · dsimp only at h
      split at h
      · split at h
        · exact absurd h (by simp)
        · cases h
      · cases h; rfl
  · intro s h1 h2 h3 h4 h5
    simp [symbolCurrency, h1, h2, h3, h4, h5]

/-- Witness for C4 (amended) at a symbol-bearing token. -/
theorem c4_amended_witness : ("EUR" : String) = symbolCurrency "€5" :=
  c4_amended.1 "€5" (Rat.divInt 5 1) "EUR" (by decide)

/-- C5: when the first structurally matching grammar's field extraction
raises, the whole line yields no record and no exception escapes
(`parse_transaction_line` returns `none`), and the batch loop processes any
concatenation of line lists as both halves in sequence, so it continues past
failing lines unconditionally. -/
theorem c5_extraction_failure_drops_line :
    (∀ line r i, 1 ≤ i → i ≤ 9 → structMatch i line = true →
       (∀ j, j < i → 1 ≤ j → structMatch j line = false) →
       grammarExtract i line r = none →
       parse_transaction_line line r = none) ∧
    (∀ ls1 ls2 idx, assembleLoop (ls1 ++ ls2) idx =
       assembleLoop ls1 idx ++ assembleLoop ls2 (idx + ls1.length)) := by
  constructor
  · intro line r i h1 h9 hm hp hnone
    rw [parse_eq_grammarExtract_of_first line r i h1 h9 hm hp]
    exact hnone
  · exact fun ls1 ls2 idx => assembleLoop_append ls1 ls2 idx

/-- Witness for C5: a line structurally matching pattern 1 whose amount group
`","` makes `extract_amount` raise is dropped whole. -/
theorem c5_extraction_failure_witness :
    parse_transaction_line "2023-05-14 14:05:31::user123::top-up::,::Loc::Dev" 1 = none :=
  c5_extraction_failure_drops_line.1
    "2023-05-14 14:05:31::user123::top-up::,::Loc::Dev" 1 1
    (by decide) (by decide) (by decide) (by decide) (by decide)

/-- C6: in every Dataset returned by `clean_transaction_logs` the currency of
every record is one of EUR, GBP, USD — never `none` and never other text;
the post-processing fill for a missing currency is the dataset-level default
USD, which differs from the per-token extractor default GBP
(`extract_amount ""` yields GBP). -/
theorem c6_currency_domain :
    (∀ fs p r ds, clean_transaction_logs fs p r = Except.ok ds →
       ∀ rec ∈ ds, rec.currency = some "EUR" ∨ rec.currency = some "GBP" ∨
         rec.currency = some "USD") ∧
    (∀ rec, rec.currency = none → (postProcessRecord rec).currency = some "USD") ∧
    extract_amount "" = some (none, "GBP") ∧
    ("USD" : String) ≠ "GBP" := by
  refine ⟨?_, ?_, by decide, by decide⟩
  · intro fs p r ds h rec hrec
    obtain ⟨c, rfl⟩ := clean_transaction_logs_ok h
    obtain ⟨rec0, h0, rfl⟩ := cleanContent_mem hrec
    obtain ⟨k, _, _, hcur⟩ := assembleLoop_mem_spec _ 0 rec0 h0
    rcases hcur with h' | h' | h'
    · left; simp [postProcessRecord, h']
    · right; left; simp [postProcessRecord, h']
    · right; right; simp [postProcessRecord, h']
  · intro rec h
    simp [postProcessRecord, h]

/-- Witness for C6 at a concrete one-record dataset. -/
theorem c6_currency_domain_witness :
    (some "GBP" : Option String) = some "EUR" ∨
    (some "GBP" : Option String) = some "GBP" ∨
    (some "GBP" : Option String) = some "USD" :=
  c6_currency_domain.1 (fun _ => "usr:user123|top-up|500|Loc|2023-05-14 14:05:31|Dev")
    (some "logs.csv") none
    (cleanContent "usr:user123|top-up|500|Loc|2023-05-14 14:05:31|Dev") rfl
    (⟨1, "usr:user123|top-up|500|Loc|2023-05-14 14:05:31|Dev",
      some ⟨2023, 5, 14, 14, 5, 31⟩, some "user123", some "top-up",
      some (Rat.divInt 500 1), some "GBP", some "Loc", some "Dev"⟩ : TxRecord)
    (by decide)

/-- C7: `parse_datetime` returns `none` for the empty string, the
case-insensitive literal `"none"`, and every string not exactly matching one
of the two layouts `YYYY-MM-DD HH:MM:SS` and `DD/MM/YYYY HH:MM:SS` —
including `"not-a-date"` and a shape-matching but out-of-range date — and it
never raises (it is a total function into `Option`). -/
theorem c7_datetime_rejects :
    (∀ s : String, s = "" ∨ pyLower s = "none" ∨ matchesLayout s = false →
       parse_datetime s = none) ∧
    parse_datetime "not-a-date" = none ∧
    parse_datetime "2023-02-30 10:00:00" = none := by
  refine ⟨?_, by decide, by decide⟩
  intro s h
  unfold parse_datetime
  split
  · rfl
  next hcond =>
    rcases h with rfl | h | h
    · simp at hcond
    · simp [h] at hcond
    · unfold matchesLayout at h
      cases hiso : isoShape s.data with
      | some v =>
        obtain ⟨y, mo, d, hh, mi, sec⟩ := v
        rw [hiso] at h
        dsimp only at h ⊢
        exact eq_none_of_isSome_false h
      | none =>
        rw [hiso] at h
        dsimp only at h ⊢
        cases hdmy : dmyShape s.data with
        | some v =>
          obtain ⟨y, mo, d, hh, mi, sec⟩ := v
          rw [hdmy] at h
          dsimp only at h ⊢
          exact eq_none_of_isSome_false h
        | none => rfl

/-- Witness for C7 at a non-matching string. -/
theorem c7_datetime_rejects_witness : parse_datetime "abc" = none :=
  c7_datetime_rejects.1 "abc" (Or.inr (Or.inr (by decide)))

/-- C10: the three triple-colon grammars (patterns 6, 8, 9) lowercase the
matched action token; the arrow/bracket grammar (pattern 3) replaces every
`-` of the action token with `_`; the remaining patterns store the matched
token verbatim (pattern 2's action token is its group 2, the others'
group 3). -/
theorem c10_type_normalization :
    (∀ l r m rec, extractPattern6 l r m = some rec →
       rec.transaction_type = some (pyLower m.g3)) ∧
    (∀ l r m rec, extractPattern8 l r m = some rec →
       rec.transaction_type = some (pyLower m.g3)) ∧
    (∀ l r m rec, extractPattern9 l r m = some rec →
       rec.transaction_type = some (pyLower m.g3)) ∧
    (∀ l r m rec, extractPattern3 l r m = some rec →
       rec.transaction_type = some (pyReplace m.g3 "-" "_")) ∧
    (∀ l r m rec, extractPattern1 l r m = some rec →
       rec.transaction_type = some m.g3) ∧
    (∀ l r m rec, extractPattern2 l r m = some rec →
       rec.transaction_type = some m.g2) ∧
    (∀ l r m rec, extractPattern4 l r m = some rec →
       rec.transaction_type = some m.g3) ∧
    (∀ l r m rec, extractPattern5 l r m = some rec →
       rec.transaction_type = some m.g3) ∧
    (∀ l r m rec, extractPattern7 l r m = some rec →
       rec.transaction_type = some m.g3) :=
  ⟨fun _ _ _ _ h => (extractPattern6_spec h).2.2.2,
   fun _ _ _ _ h => (extractPattern8_spec h).2.2.2,
   fun _ _ _ _ h => (extractPattern9_spec h).2.2.2,
   fun _ _ _ _ h => (extractPattern3_spec h).2.2.2,
   fun _ _ _ _ h => (extractPattern1_spec h).2.2.2,
   fun _ _ _ _ h => (extractPattern2_spec h).2.2.2,
   fun _ _ _ _ h => (extractPattern4_spec h).2.2.2,
   fun _ _ _ _ h => (extractPattern5_spec h).2.2.2,
   fun _ _ _ _ h => (extractPattern7_spec h).2.2.2⟩

/-- Witness for C10: pattern 6 lowercases the action token `TOP-UP`. -/
theorem c10_type_normalization_witness :
    (TxRecord.transaction_type
      (⟨1, "x", some ⟨2023, 5, 14, 14, 5, 31⟩, some "user123", some "top-up",
        some (Rat.divInt 500 1), some "GBP", some "Location", some "Device"⟩ : TxRecord)) =
      some (pyLower "TOP-UP") :=
  c10_type_normalization.1 "x" 1
    ⟨"14/05/2023 14:05:31", "user123", "TOP-UP", "£500", "Location", "Device"⟩
    _ (by decide)

/-- C8: `extract_amount` maps `"€1,234.50"` to amount `1234.50` with currency
EUR, and maps the mojibake token `"3491.94â‚¬"` to amount `3491.94` with
currency EUR. -/
theorem c8_amount_examples :
    extract_amount "€1,234.50" = some (some (1234.50 : ℚ), "EUR") ∧
    extract_amount "3491.94â‚¬" = some (some (3491.94 : ℚ), "EUR") := by
  have h1 : (1234.50 : ℚ) = Rat.divInt 123450 100 := by
    rw [Rat.divInt_eq_div]; norm_num
  have h2 : (3491.94 : ℚ) = Rat.divInt 349194 100 := by
    rw [Rat.divInt_eq_div]; norm_num
  rw [h1, h2]
  exact ⟨by decide, by decide⟩

/-- C9: for every row ordinal, calling `parse_transaction_line` directly on
the empty string, on the literal two-character token `""`, or on the literal
`MALFORMED_LOG` returns no record. -/
theorem c9_sentinels_unparsed (r : Nat) :
    parse_transaction_line "" r = none ∧
    parse_transaction_line "\"\"" r = none ∧
    parse_transaction_line "MALFORMED_LOG" r = none := by
  refine ⟨?_, ?_, ?_⟩ <;> simp [parse_transaction_line]

end MoniePoint
